import Mathlib

/-!
Verification of the Overmind `TerminalNetworkV2` resource-balancing network
(`src/logistics/TerminalNetwork_v2.ts`) against its natural-language
specification.  JS numbers are modelled as exact rationals (every operation
the code performs on the quantities of interest - addition, subtraction,
`Math.min`, `Math.max`, comparison, division - is exact over `ℚ`), string
keyed objects as Lean functions or association lists, and external game API
calls (`terminal.send`, `Game.market.calcTransactionCost`, market buy) as
oracle parameters.
-/

/-- Resource identifiers (Screeps resource constants are strings,
for example `RESOURCE_ENERGY = "energy"`). -/
abbrev RName := String

/-- Colony / room names (the code uses `colony.name` and `room.name`
interchangeably as map keys). -/
abbrev CName := String

/-- Screeps game constant `LAB_MINERAL_CAPACITY`. -/
def LAB_MINERAL_CAPACITY : ℚ := 3000

/-- Screeps game constant `TERMINAL_CAPACITY`. -/
def TERMINAL_CAPACITY : ℚ := 300000

/-- Screeps game constant `STORAGE_CAPACITY`. -/
def STORAGE_CAPACITY : ℚ := 1000000

/-- Screeps game constant `FACTORY_CAPACITY`. -/
def FACTORY_CAPACITY : ℚ := 50000

/-- Screeps return code `OK`. -/
def RC_OK : Int := 0

/-- Screeps return code `ERR_NOT_ENOUGH_RESOURCES`. -/
def ERR_NOT_ENOUGH_RESOURCES : Int := -6

/-- Screeps return code `ERR_TIRED`. -/
def ERR_TIRED : Int := -11

/-- `TerminalNetworkV2.settings.maxEnergySendAmount`. -/
def maxEnergySendAmount : ℚ := 25000

/-- `TerminalNetworkV2.settings.maxResourceSendAmount`. -/
def maxResourceSendAmount : ℚ := 3000

/-- `TerminalNetworkV2.settings.minColonySpace`. -/
def minColonySpace : ℚ := 20000

/-- The `Thresholds` interface: `target`, optional `surplus`
(`undefined` modelled as `none`) and `tolerance`. -/
structure Thresholds where
  target : ℚ
  surplus : Option ℚ
  tolerance : ℚ
deriving DecidableEq

/-- The `TN_STATE` const enum of colony states. -/
inductive TN_STATE where
  | activeProvider
  | passiveProvider
  | equilibrium
  | passiveRequestor
  | activeRequestor
  | error
deriving DecidableEq

/-- A terminal: its `store` (0-filled lookup, as in Screeps) and the
`isReady` flag. -/
structure TerminalV where
  store : RName → ℚ
  isReady : Bool

/-- The slice of a `Colony` that the terminal network reads: `name`,
the 0-filled `assets` map (built by `Colony.computeAssets` via
`mergeSum [.., ALL_ZERO_ASSETS]`, modelled as an association list with
default 0), the optional terminal, the optional storage (abstracted by the
total `_.sum(storage.store)` the network reads from it) and factory
presence. -/
structure ColonyV where
  name : CName
  assets : List (RName × ℚ)
  terminal : Option TerminalV
  storageStoreSum : Option ℚ
  hasFactory : Bool

/-- Reading a key of a 0-filled JS object such as `colony.assets`. -/
def lookupQ (m : List (RName × ℚ)) (k : RName) : ℚ :=
  match m.find? (fun p => p.1 == k) with
  | some p => p.2
  | none => 0

/-- `_.sum` over the values of a JS object. -/
def sumQ (m : List (RName × ℚ)) : ℚ :=
  (m.map Prod.snd).sum

/-- The terminal of a colony; the source uses the non-null assertion
`colony.terminal!` at the corresponding places. -/
def term! (c : ColonyV) : TerminalV :=
  c.terminal.getD ⟨fun _ => 0, false⟩

/-- `DEFAULT_TARGET = 2 * LAB_MINERAL_CAPACITY + 1000` (= 7000). -/
def DEFAULT_TARGET : ℚ := 2 * LAB_MINERAL_CAPACITY + 1000

/-- `DEFAULT_SURPLUS = 15 * LAB_MINERAL_CAPACITY` (= 45000). -/
def DEFAULT_SURPLUS : ℚ := 15 * LAB_MINERAL_CAPACITY

/-- `DEFAULT_TOLERANCE = LAB_MINERAL_CAPACITY / 3` (= 1000). -/
def DEFAULT_TOLERANCE : ℚ := LAB_MINERAL_CAPACITY / 3

/-- `THRESHOLDS_DEFAULT`. -/
def THRESHOLDS_DEFAULT : Thresholds :=
  ⟨DEFAULT_TARGET, some DEFAULT_SURPLUS, DEFAULT_TOLERANCE⟩

/-- `THRESHOLDS_DONT_WANT` (also the default argument of
`exportResource`). -/
def THRESHOLDS_DONT_WANT : Thresholds := ⟨0, some 0, 0⟩

/-- `THRESHOLDS_DONT_CARE`. -/
def THRESHOLDS_DONT_CARE : Thresholds := ⟨0, none, 0⟩

/-- `THRESHOLDS_POWER`. -/
def THRESHOLDS_POWER : Thresholds := ⟨2500, none, 2500⟩

/-- `THRESHOLDS_OPS`. -/
def THRESHOLDS_OPS : Thresholds := ⟨2500, none, 2500⟩

/-- The `Abathur` resource-classification predicates consumed by
`getThresholds`.  `Abathur` is an external resource-chemistry module; the
network only branches on these boolean tests, so they are parameters of
the model. -/
structure AbathurPreds where
  isBaseMineral : RName → Bool
  isIntermediateReactant : RName → Bool
  isHealBoost : RName → Bool
  isMineralOrCompound : RName → Bool
  isDepositResource : RName → Bool
  isCommodity : RName → Bool
  isBoost : RName → Bool

/-- `getThresholds(resource)` for non-energy resources (the source
memoizes it over `RESOURCES_ALL_EXCEPT_ENERGY` as `ALL_THRESHOLDS`). -/
def getThresholds (ab : AbathurPreds) (resource : RName) : Thresholds :=
  if resource == "power" then THRESHOLDS_POWER
  else if resource == "ops" then THRESHOLDS_OPS
  else if ab.isBaseMineral resource then THRESHOLDS_DEFAULT
  else if ab.isIntermediateReactant resource then THRESHOLDS_DEFAULT
  else if ab.isHealBoost resource then
    ⟨(3/2) * DEFAULT_TARGET, some DEFAULT_SURPLUS, DEFAULT_TOLERANCE⟩
  else if ab.isMineralOrCompound resource then THRESHOLDS_DEFAULT
  else if ab.isDepositResource resource then THRESHOLDS_DONT_CARE
  else if ab.isCommodity resource then THRESHOLDS_DONT_CARE
  else THRESHOLDS_DONT_CARE

/-- `getRemainingSpace(colony, includeFactoryCapacity = false)`:
room capacity minus total assets, counting overfilled storage as exactly
full. -/
def getRemainingSpace (colony : ColonyV) (includeFactoryCapacity : Bool) : ℚ :=
  let totalAssets := sumQ colony.assets
  let totalAssets :=
    match colony.storageStoreSum with
    | some s => if s > STORAGE_CAPACITY then totalAssets - (s - STORAGE_CAPACITY) else totalAssets
    | none => totalAssets
  let roomCapacity :=
    (if colony.terminal.isSome then TERMINAL_CAPACITY else 0) +
    (if colony.storageStoreSum.isSome then STORAGE_CAPACITY else 0) +
    (if colony.hasFactory && includeFactoryCapacity then FACTORY_CAPACITY else 0)
  roomCapacity - totalAssets

/-- The test `surplus != undefined && amount > surplus` of the first
classifier branch. -/
def isAboveSurplus (th : Thresholds) (amount : ℚ) : Bool :=
  match th.surplus with
  | some s => decide (amount > s)
  | none => false

/-- The test `(surplus != undefined ? surplus : Infinity) >= amount` of
the second classifier branch (`Infinity >= amount` always holds). -/
def surplusAtLeast (th : Thresholds) (amount : ℚ) : Bool :=
  match th.surplus with
  | some s => decide (s ≥ amount)
  | none => true

/-- Body of `getColonyState(colony, resource)` over the already looked-up
quantities: `th` is `this.thresholds(colony, resource)`, `amount` is
`colony.assets[resource]` and `remSpace` is `this.getRemainingSpace(colony)`. -/
def getColonyStateCore (th : Thresholds) (amount remSpace : ℚ) : TN_STATE :=
  if isAboveSurplus th amount
     || (decide (amount > th.target + th.tolerance)
         && decide (remSpace < minColonySpace)) then
    TN_STATE.activeProvider
  else if surplusAtLeast th amount && decide (amount > th.target + th.tolerance) then
    TN_STATE.passiveProvider
  else if decide (th.target + th.tolerance ≥ amount)
          && decide (amount ≥ max (th.target - th.tolerance) 0) then
    TN_STATE.equilibrium
  else if decide (amount < max (th.target - th.tolerance) 0) then
    TN_STATE.passiveRequestor
  else
    TN_STATE.error

/-- `getColonyState(colony, resource)`, with the thresholds triple
(the result of `this.thresholds(colony, resource)`) passed in. -/
def getColonyState (th : Thresholds) (colony : ColonyV) (resource : RName) : TN_STATE :=
  getColonyStateCore th (lookupQ colony.assets resource) (getRemainingSpace colony false)

/-- The classifier as the specification words it (spec section 4.2 /
claim C3): ActiveProvider if above surplus or above `target + tolerance`
while nearly full; else PassiveProvider if above `target + tolerance`
(and at most surplus when surplus is present); else Equilibrium inside
the tolerance band clamped at 0; else PassiveRequestor below the band. -/
def classifySpec (th : Thresholds) (amount remSpace : ℚ) : TN_STATE :=
  if isAboveSurplus th amount
     || (decide (amount > th.target + th.tolerance) && decide (remSpace < minColonySpace)) then
    TN_STATE.activeProvider
  else if decide (amount > th.target + th.tolerance)
          && (match th.surplus with
              | some s => decide (amount ≤ s)
              | none => true) then
    TN_STATE.passiveProvider
  else if decide (max (th.target - th.tolerance) 0 ≤ amount)
          && decide (amount ≤ th.target + th.tolerance) then
    TN_STATE.equilibrium
  else if decide (amount < max (th.target - th.tolerance) 0) then
    TN_STATE.passiveRequestor
  else
    TN_STATE.error

/-- The core classifier agrees with the spec's case analysis. -/
theorem getColonyStateCore_eq_classifySpec (th : Thresholds) (x rs : ℚ) :
    getColonyStateCore th x rs = classifySpec th x rs := by
  rcases th with ⟨t, s?, tol⟩
  rcases s? with _ | s
  · unfold getColonyStateCore classifySpec
    simp only [isAboveSurplus, surplusAtLeast]
    by_cases hB : x > t + tol
    · by_cases hC : rs < minColonySpace
      · simp [hB, hC]
      · simp [hB, hC]
    · by_cases hF : max (t - tol) 0 ≤ x
      · simp [hB, hF, not_lt.mp hB, ge_iff_le]
      · simp [hB, hF, not_lt.mp hB, not_le.mp hF, ge_iff_le]
  · unfold getColonyStateCore classifySpec
    simp only [isAboveSurplus, surplusAtLeast]
    by_cases hA : x > s
    · simp [hA]
    · by_cases hB : x > t + tol
      · by_cases hC : rs < minColonySpace
        · simp [hA, hB, hC, not_lt.mp hA, ge_iff_le]
        · simp [hA, hB, hC, not_lt.mp hA, ge_iff_le]
      · by_cases hF : max (t - tol) 0 ≤ x
        · simp [hA, hB, hF, not_lt.mp hA, not_lt.mp hB, ge_iff_le]
        · simp [hA, hB, hF, not_lt.mp hA, not_lt.mp hB, not_le.mp hF, ge_iff_le]

/-- C3: the classifier agrees with the spec's case analysis on every
thresholds triple, colony and resource, and never yields
`activeRequestor`. -/
theorem getColonyState_eq_classifySpec (th : Thresholds) (colony : ColonyV) (resource : RName) :
    getColonyState th colony resource
      = classifySpec th (lookupQ colony.assets resource) (getRemainingSpace colony false)
    ∧ getColonyState th colony resource ≠ TN_STATE.activeRequestor := by
  refine ⟨getColonyStateCore_eq_classifySpec .., ?_⟩
  unfold getColonyState getColonyStateCore
  split_ifs <;> simp

/-- The filter of `getEnergyThresholds`: colonies with a storage and
without a per-colony energy override
(`colony.storage && !(colonyThresholds[colony.name] &&
colonyThresholds[colony.name][RESOURCE_ENERGY])`). -/
def nonExceptionalColonies (cth : CName → RName → Option Thresholds)
    (colonies : List ColonyV) : List ColonyV :=
  colonies.filter (fun c => c.storageStoreSum.isSome && (cth c.name "energy").isNone)

/-- The body of `getEnergyThresholds` on a cache miss: the average energy
of the non-exceptional colonies as target, `surplus: 500000`, and
`tolerance: avgEnergy / 5`. -/
def computeEnergyThresholds (cth : CName → RName → Option Thresholds)
    (colonies : List ColonyV) : Thresholds :=
  let nonExceptional := nonExceptionalColonies cth colonies
  let avgEnergy := ((nonExceptional.map (fun c => lookupQ c.assets "energy")).sum)
                   / (nonExceptional.length : ℚ)
  ⟨avgEnergy, some 500000, avgEnergy / 5⟩

/-- `getEnergyThresholds()` including its `_energyThresholds` caching:
returns the (result, new cache) pair. -/
def getEnergyThresholds (cache : Option Thresholds)
    (cth : CName → RName → Option Thresholds) (colonies : List ColonyV) :
    Thresholds × Option Thresholds :=
  match cache with
  | some t => (t, some t)
  | none =>
    let t := computeEnergyThresholds cth colonies
    (t, some t)

/-- `thresholds(colony, resource)`: the per-colony override if present,
else the dynamic energy thresholds for energy, else the static table.
The energy thresholds are passed in already resolved (the network resolves
them through the `_energyThresholds` cache, which holds a fixed value for
the whole tick). -/
def thresholdsFor (cth : CName → RName → Option Thresholds)
    (energyTh : Thresholds) (ab : AbathurPreds) (c : ColonyV) (resource : RName) : Thresholds :=
  match cth c.name resource with
  | some t => t
  | none => if resource == "energy" then energyTh else getThresholds ab resource

/-- The override maps that `requestResource` touches:
`colonyThresholds` (flattened; the source auto-creates the inner object)
and `colonyStates`, whose inner object is only created by `init()` -
`requestResource` writes into it unguarded. -/
structure OverrideState where
  colonyThresholds : CName → RName → Option Thresholds
  colonyStates : CName → Option (RName → Option TN_STATE)

/-- `requestResource(requestor, resource, amount, tolerance = 0)`.
Returns the new state together with a flag that is `true` when the source
would throw a `TypeError` (writing
`this.colonyStates[requestor.name][resource]` while the outer entry is
missing; the thresholds write has already happened at that point). -/
def requestResource (s : OverrideState) (requestor : ColonyV) (resource : RName)
    (amount : ℚ) (tolerance : ℚ) : OverrideState × Bool :=
  if lookupQ requestor.assets resource ≥ amount then
    (s, false)
  else
    let s1 : OverrideState :=
      { s with colonyThresholds := fun c r =>
          if c = requestor.name ∧ r = resource then some ⟨amount, none, tolerance⟩
          else s.colonyThresholds c r }
    match s.colonyStates requestor.name with
    | none => (s1, true)
    | some states =>
      ({ s1 with colonyStates := fun c =>
          (if c = requestor.name then
            some (fun r => if r = resource then some TN_STATE.activeRequestor else states r)
          else s.colonyStates c) },
       false)

/-- The persistent stats memory (`Memory.stats.persistent.terminalNetwork`),
as far as the network reads or writes it. -/
structure StatsMem where
  transfers : RName → CName → CName → ℚ
  costs : CName → CName → ℚ
  avgCooldown : CName → ℚ
  overload : CName → ℚ

/-- The whole mutable state of `TerminalNetworkV2` (the per-tick fields
reset by `refresh()`, plus the colony list and the stats handle). -/
structure TNState where
  colonies : List ColonyV
  colonyThresholds : CName → RName → Option Thresholds
  energyCache : Option Thresholds
  colonyStates : CName → Option (RName → Option TN_STATE)
  activeProviders : RName → Option (List ColonyV)
  passiveProviders : RName → Option (List ColonyV)
  equilibriumNodes : RName → Option (List ColonyV)
  passiveRequestors : RName → Option (List ColonyV)
  activeRequestors : RName → Option (List ColonyV)
  assets : List (RName × ℚ)
  terminalOverload : CName → Bool
  notifications : List String
  stats : StatsMem

/-- `refresh()`: clears every per-tick field and re-acquires the stats
memory handle.  `wrapStats` models `Mem.wrap(Memory.stats.persistent,
'terminalNetwork', ...)`, a function of the external persistent memory
only. -/
def refresh (wrapStats : StatsMem) (s : TNState) : TNState :=
  { colonies := s.colonies
    colonyThresholds := fun _ _ => none
    energyCache := none
    colonyStates := fun _ => none
    activeProviders := fun _ => none
    passiveProviders := fun _ => none
    equilibriumNodes := fun _ => none
    passiveRequestors := fun _ => none
    activeRequestors := fun _ => none
    assets := []
    terminalOverload := fun _ => false
    notifications := []
    stats := wrapStats }

/-- The slice of network state touched by `transfer`: the transfer ledger
and costs in stats, the notifications, and `terminalOverload`. -/
structure XferState where
  transfers : RName → CName → CName → ℚ
  costs : CName → CName → ℚ
  notifications : List String
  terminalOverload : CName → Bool

/-- The notification text built on a successful transfer (the decorated
room names and arrow glyphs are irrelevant to the claims). -/
def transferMsg (origin : CName) (amount : ℚ) (resourceType : RName)
    (dest : CName) (description : String) : String :=
  origin ++ " -> " ++ toString amount ++ " " ++ resourceType ++ " -> " ++ dest
    ++ " (" ++ description ++ ")"

/-- `transfer(sender, receiver, resourceType, amount, description)`.
`calcCost` models `Game.market.calcTransactionCost(amount, origin,
destination)` and `response` the return value of the external
`sender.send(...)` call.  On `OK` it appends a notification and updates
the ledger (`logTransfer` / `logTransferCosts`); otherwise it flags the
sender in `terminalOverload` exactly on `ERR_NOT_ENOUGH_RESOURCES` and
`ERR_TIRED`. -/
def transfer (calcCost : ℚ → CName → CName → ℚ) (response : Int)
    (resourceType : RName) (amount : ℚ) (origin destination : CName)
    (description : String) (s : XferState) : Int × XferState :=
  let _cost := calcCost amount origin destination
  if response = RC_OK then
    (response,
     { transfers := fun r o d =>
         if r = resourceType ∧ o = origin ∧ d = destination then
           s.transfers r o d + amount
         else s.transfers r o d
       costs := fun o d =>
         if o = origin ∧ d = destination then
           s.costs o d + calcCost amount origin destination
         else s.costs o d
       notifications := s.notifications
         ++ [transferMsg origin amount resourceType destination description]
       terminalOverload := s.terminalOverload })
  else
    (response,
     { s with terminalOverload :=
         if response = ERR_NOT_ENOUGH_RESOURCES ∨ response = ERR_TIRED then
           fun c => if c = origin then true else s.terminalOverload c
         else s.terminalOverload })

/-- Stable ascending insertion of an element into a list sorted on `key`
(the element goes before the first strictly greater key, after equal
keys already inserted before it... precisely: before the first element
whose key it is at most). -/
def insertOn (key : α → ℚ) (a : α) : List α → List α
  | [] => [a]
  | b :: bs => if key a ≤ key b then a :: b :: bs else b :: insertOn key a bs

/-- Stable ascending sort on a rational key, modelling lodash
`_.sortBy(list, iteratee)` (lodash sorts ascending). -/
def sortOn (key : α → ℚ) : List α → List α
  | [] => []
  | a :: as' => insertOn key a (sortOn key as')

/-- Fold that keeps the current best element, replacing it only on a
strictly larger score (so the first maximizer wins). -/
def maxByGo (f : α → ℚ) (best : α) : List α → α
  | [] => best
  | a :: as' => maxByGo f (if f a > f best then a else best) as'

/-- Modelled from the spec: `maxBy` lives in `src/utilities/utils`, which
is not part of the sources; spec section 4.3 says the best sender
"maximizes the score".  Returns the first maximizer (`dflt` on an empty
list, where the source logs an error and would crash downstream). -/
def maxByD (f : α → ℚ) (dflt : α) : List α → α
  | [] => dflt
  | a :: as' => maxByGo f a as'

/-- All the external inputs `handleRequestInstance` consults:
threshold overrides and the resolved energy thresholds (fixed for the
tick), the `Abathur` predicates, `Game.market.calcTransactionCost`
(as `calcCost amount origin destination`), the cooldown EMA read by
`getBestSenderColony` (`stats.terminals.avgCooldown[...] || 0`),
the outcome of each external `terminal.send` (an oracle keyed by origin,
destination, resource and amount), `Game.market.credits`, the
`TraderJoe.settings.market.credits` gates, and the market `buy` outcome. -/
structure Ctx where
  colonyThresholds : CName → RName → Option Thresholds
  energyThresholds : Thresholds
  ab : AbathurPreds
  calcCost : ℚ → CName → CName → ℚ
  avgCooldown : CName → ℚ
  sendResult : CName → CName → RName → ℚ → Int
  credits : ℚ
  canBuyEnergyAbove : ℚ
  canBuyBoostsAbove : ℚ
  buyResult : CName → RName → ℚ → Int

/-- `this.thresholds(colony, resource)` under a context. -/
def cthresholds (ctx : Ctx) (c : ColonyV) (resource : RName) : Thresholds :=
  thresholdsFor ctx.colonyThresholds ctx.energyThresholds ctx.ab c resource

/-- The `RequestOpts` interface (defaults already applied by
`handleRequestors`). -/
structure RequestOpts where
  allowDivvying : Bool
  sendTargetPlusTolerance : Bool
  allowMarketBuy : Bool
  receiveOnlyOncePerTick : Bool

/-- One call of `this.transfer(sendTerm, recvTerm, resource, amount, ...)`
as seen from `handleRequestInstance`: origin and destination room,
resource, the amount argument, and the return code of the underlying
send. -/
structure SendCall where
  origin : CName
  dest : CName
  res : RName
  amount : ℚ
  response : Int
deriving DecidableEq

/-- The observable outcome of one `handleRequestInstance` call: its
boolean return value, the transfer calls it made in order, the rooms it
marked in `terminalOverload`, and whether control reached the market-buy
section (the code starting at `if (opts.allowMarketBuy)`). -/
structure ReqResult where
  handled : Bool
  sends : List SendCall
  overloaded : List CName
  marketReached : Bool
deriving DecidableEq

/-- `getBestSenderColony(resource, amount, colony, partners)`: maximize
`-sendCost * (K + sendCost/BIG_COST + avgCooldown)` with `K = 2` and
`BIG_COST = 2000`. -/
def getBestSenderColony (ctx : Ctx) (amount : ℚ)
    (colony : ColonyV) (partners : List ColonyV) : ColonyV :=
  maxByD
    (fun partner =>
      let sendCost := ctx.calcCost amount partner.name colony.name;
      -1 * sendCost * (2 + sendCost / 2000 + ctx.avgCooldown partner.name))
    colony partners

/-- The first phase of `handleRequestInstance`: walk the prioritized
partner sets looking for a single sender.  The strict filter asks for
`assets - request >= target(partner)`; the relaxed one for
`assets - request >= target(partner) - tolerance(requestor)`.  On a hit
the source computes the clamped `sendAmount` but passes `requestAmount`
to `transfer`; returns `some (sends, overloads)`, or `none` when every
set fails. -/
def tryPartnerSets (ctx : Ctx) (colony : ColonyV) (resource : RName) (requestAmount : ℚ) :
    List (List ColonyV) → Option (List SendCall × List CName)
  | [] => none
  | partners :: rest =>
    let strict := partners.filter (fun p =>
      decide (lookupQ p.assets resource - requestAmount ≥ (cthresholds ctx p resource).target))
    let valid := if strict.isEmpty then
        partners.filter (fun p =>
          decide (lookupQ p.assets resource - requestAmount ≥
            (cthresholds ctx p resource).target - (cthresholds ctx colony resource).tolerance))
      else strict
    if valid.isEmpty then
      tryPartnerSets ctx colony resource requestAmount rest
    else
      let bestPartner := getBestSenderColony ctx requestAmount colony valid
      let sendTerm := term! bestPartner
      let maxAmount := if resource == "energy" then maxEnergySendAmount else maxResourceSendAmount
      let sendAmount := min (min requestAmount (sendTerm.store resource)) maxAmount
      if sendTerm.isReady then
        some ([⟨bestPartner.name, colony.name, resource, requestAmount,
               ctx.sendResult bestPartner.name colony.name resource requestAmount⟩], [])
      else
        some ([], [bestPartner.name])

/-- The divvy partner selection: all flattened partners holding more than
their target, run through lodash `_.sortBy` (ascending) on the excess,
then `take(3)` (`MAX_SEND_REQUESTS`). -/
def divvyPartners (ctx : Ctx) (resource : RName) (allPartners : List ColonyV) : List ColonyV :=
  (sortOn (fun p => lookupQ p.assets resource - (cthresholds ctx p resource).target)
    (allPartners.filter (fun p =>
      decide (lookupQ p.assets resource > (cthresholds ctx p resource).target)))).take 3

/-- The per-partner send amount computed inside the divvy loop:
`sendAmount = Math.min(amountPartnerCanSend, remainingAmount, maxAmount)`
where `amountPartnerCanSend = sendTerm.store[resource] - target(partner)`
(note: terminal store, not assets). -/
def divvySendAmount (ctx : Ctx) (p : ColonyV) (resource : RName) (remaining : ℚ) : ℚ :=
  let sendTerm := term! p
  let amountPartnerCanSend := sendTerm.store resource - (cthresholds ctx p resource).target
  let maxAmount := if resource == "energy" then maxEnergySendAmount else maxResourceSendAmount
  min (min amountPartnerCanSend remaining) maxAmount

/-- The divvy loop of `handleRequestInstance`.  Arguments after the
partner list: remaining amount, `sentSome`, accumulated sends, and
accumulated overload marks.  Returns
`(early, sentSome, remaining, sends, overloads)` where `early` records
the in-loop `return true` on `remainingAmount <= 0` (that trailing check
of the source loop body is inlined into each of the three branches of
the body here; only the successful send changes `remainingAmount`). -/
def divvyLoop (ctx : Ctx) (colony : ColonyV) (resource : RName) :
    List ColonyV → ℚ → Bool → List SendCall → List CName →
    Bool × Bool × ℚ × List SendCall × List CName
  | [], remaining, sentSome, sends, ovl => (false, sentSome, remaining, sends, ovl)
  | p :: ps, remaining, sentSome, sends, ovl =>
    if (term! p).isReady then
      if ctx.sendResult p.name colony.name resource (divvySendAmount ctx p resource remaining)
          = RC_OK then
        if remaining - divvySendAmount ctx p resource remaining ≤ 0 then
          (true, true, remaining - divvySendAmount ctx p resource remaining,
           sends ++ [⟨p.name, colony.name, resource, divvySendAmount ctx p resource remaining,
                     ctx.sendResult p.name colony.name resource
                       (divvySendAmount ctx p resource remaining)⟩], ovl)
        else
          divvyLoop ctx colony resource ps (remaining - divvySendAmount ctx p resource remaining)
            true
            (sends ++ [⟨p.name, colony.name, resource, divvySendAmount ctx p resource remaining,
                       ctx.sendResult p.name colony.name resource
                         (divvySendAmount ctx p resource remaining)⟩]) ovl
      else
        if remaining ≤ 0 then
          (true, sentSome, remaining,
           sends ++ [⟨p.name, colony.name, resource, divvySendAmount ctx p resource remaining,
                     ctx.sendResult p.name colony.name resource
                       (divvySendAmount ctx p resource remaining)⟩], ovl ++ [p.name])
        else
          divvyLoop ctx colony resource ps remaining sentSome
            (sends ++ [⟨p.name, colony.name, resource, divvySendAmount ctx p resource remaining,
                       ctx.sendResult p.name colony.name resource
                         (divvySendAmount ctx p resource remaining)⟩]) (ovl ++ [p.name])
    else
      if remaining ≤ 0 then
        (true, sentSome, remaining, sends, ovl ++ [p.name])
      else
        divvyLoop ctx colony resource ps remaining sentSome sends (ovl ++ [p.name])

/-- The market-buy section of `handleRequestInstance` (the code from
`if (opts.allowMarketBuy)` on), with the sends and overload marks
accumulated so far threaded through.  Every outcome of this function has
`marketReached = true`. -/
def marketPhase (ctx : Ctx) (colony : ColonyV) (resource : RName) (requestAmount : ℚ)
    (opts : RequestOpts) (sends : List SendCall) (ovl : List CName) : ReqResult :=
  if opts.allowMarketBuy then
    if resource == "energy" && decide (ctx.credits < ctx.canBuyEnergyAbove) then
      ⟨false, sends, ovl, true⟩
    else if ctx.ab.isBoost resource && decide (ctx.credits < ctx.canBuyBoostsAbove) then
      ⟨false, sends, ovl, true⟩
    else if ctx.buyResult colony.name resource requestAmount ≥ 0 then
      ⟨true, sends, ovl, true⟩
    else
      ⟨false, sends, ovl, true⟩
  else
    ⟨false, sends, ovl, true⟩

/-- `handleRequestInstance(colony, resource, requestAmount, partnerSets,
opts)`. -/
def handleRequestInstance (ctx : Ctx) (colony : ColonyV) (resource : RName)
    (requestAmount : ℚ) (partnerSets : List (List ColonyV)) (opts : RequestOpts) : ReqResult :=
  match tryPartnerSets ctx colony resource requestAmount partnerSets with
  | some (sends, ovl) => ⟨true, sends, ovl, false⟩
  | none =>
    if opts.allowDivvying then
      let valid := divvyPartners ctx resource partnerSets.flatten
      let out := divvyLoop ctx colony resource valid requestAmount false [] []
      if out.1 then
        ⟨true, out.2.2.2.1, out.2.2.2.2, false⟩
      else if out.2.1 then
        ⟨true, out.2.2.2.1, out.2.2.2.2, false⟩
      else
        marketPhase ctx colony resource requestAmount opts out.2.2.2.1 out.2.2.2.2
    else
      marketPhase ctx colony resource requestAmount opts [] []

/-- C9: calling `refresh()` twice in a row with no intervening `init()`
or `run()` leaves the whole network state (in particular every per-tick
field: `colonyThresholds`, the cached energy thresholds, `colonyStates`,
the five tier buckets, `assets`, `terminalOverload` and `notifications`)
identical to calling it once. -/
theorem refresh_idempotent (wrapStats : StatsMem) (s : TNState) :
    refresh wrapStats (refresh wrapStats s) = refresh wrapStats s := rfl

/-- C7: `transfer` updates the ledger exactly on an `OK` send: on success
`transfers[resource][origin][destination]` grows by exactly `amount`,
`costs[origin][destination]` by exactly the transaction cost, and one
notification is appended; on any non-`OK` code the ledger, costs and
notifications are unchanged; and the sender ends up flagged in
`terminalOverload` exactly when it already was or the code is
`ERR_NOT_ENOUGH_RESOURCES` or `ERR_TIRED`. -/
theorem transfer_ledger_spec (calcCost : ℚ → CName → CName → ℚ) (response : Int)
    (resourceType : RName) (amount : ℚ) (origin destination : CName)
    (description : String) (s : XferState) :
    (∀ r o d,
      (transfer calcCost response resourceType amount origin destination description s).2.transfers r o d
        = s.transfers r o d +
          (if response = RC_OK ∧ r = resourceType ∧ o = origin ∧ d = destination
           then amount else 0))
    ∧ (∀ o d,
      (transfer calcCost response resourceType amount origin destination description s).2.costs o d
        = s.costs o d +
          (if response = RC_OK ∧ o = origin ∧ d = destination
           then calcCost amount origin destination else 0))
    ∧ (transfer calcCost response resourceType amount origin destination description s).2.notifications
        = s.notifications ++
          (if response = RC_OK
           then [transferMsg origin amount resourceType destination description] else [])
    ∧ (∀ c,
      ((transfer calcCost response resourceType amount origin destination description s).2.terminalOverload c = true
        ↔ (s.terminalOverload c = true
           ∨ ((response = ERR_NOT_ENOUGH_RESOURCES ∨ response = ERR_TIRED) ∧ c = origin)))) := by
  refine ⟨fun r o d => ?_, fun o d => ?_, ?_, fun c => ?_⟩
  · by_cases h : response = RC_OK <;> simp [transfer, h] <;> split_ifs <;> simp_all
  · by_cases h : response = RC_OK <;> simp [transfer, h] <;> split_ifs <;> simp_all
  · by_cases h : response = RC_OK <;> simp [transfer, h]
  · by_cases h : response = RC_OK
    · simp [transfer, h, RC_OK, ERR_NOT_ENOUGH_RESOURCES, ERR_TIRED]
    · by_cases he : response = ERR_NOT_ENOUGH_RESOURCES ∨ response = ERR_TIRED
      · by_cases hc : c = origin <;> simp [transfer, h, he, hc]
      · simp [transfer, h, he]

/-- C4: `requestResource(requestor, resource, amount, tolerance)` leaves
both override maps untouched when the colony already holds at least
`amount`; otherwise (given the colony-states entry that `init()` creates
for every registered colony) it records the threshold triple
`(target = amount, surplus = none, tolerance)` and the `activeRequestor`
state at exactly that colony and resource, leaving every other entry
unchanged and throwing no error. -/
theorem requestResource_spec (s : OverrideState) (requestor : ColonyV) (resource : RName)
    (amount tolerance : ℚ) :
    (lookupQ requestor.assets resource ≥ amount →
      requestResource s requestor resource amount tolerance = (s, false))
    ∧ (lookupQ requestor.assets resource < amount →
       ∀ st, s.colonyStates requestor.name = some st →
        (requestResource s requestor resource amount tolerance).2 = false
        ∧ (requestResource s requestor resource amount tolerance).1.colonyThresholds
            requestor.name resource = some ⟨amount, none, tolerance⟩
        ∧ (∀ c r, ¬(c = requestor.name ∧ r = resource) →
            (requestResource s requestor resource amount tolerance).1.colonyThresholds c r
              = s.colonyThresholds c r)
        ∧ (∃ st', (requestResource s requestor resource amount tolerance).1.colonyStates
              requestor.name = some st'
            ∧ st' resource = some TN_STATE.activeRequestor
            ∧ ∀ r, r ≠ resource → st' r = st r)
        ∧ (∀ c, c ≠ requestor.name →
            (requestResource s requestor resource amount tolerance).1.colonyStates c
              = s.colonyStates c)) := by
  constructor
  · intro h
    simp [requestResource, h]
  · intro h st hst
    have hlt : ¬(lookupQ requestor.assets resource ≥ amount) := not_le.mpr h
    refine ⟨?_, ?_, ?_, ?_, ?_⟩
    · simp [requestResource, hlt, hst]
    · simp [requestResource, hlt, hst]
    · intro c r hcr
      simp [requestResource, hlt, hst, hcr]
    · refine ⟨fun r => if r = resource then some TN_STATE.activeRequestor else st r, ?_, ?_, ?_⟩
      · simp [requestResource, hlt, hst]
      · simp
      · intro r hr
        simp [hr]
    · intro c hc
      simp [requestResource, hlt, hst, hc]

/-- A colony holding 5 units of resource X, used to witness
`requestResource_spec`. -/
def w4colony : ColonyV := ⟨"A", [("X", 5)], none, none, false⟩

/-- An override state in which colony A is registered (its
`colonyStates` inner object exists, as `init()` leaves it). -/
def w4state : OverrideState :=
  ⟨fun _ _ => none, fun c => if c = "A" then some (fun _ => none) else none⟩

/-- Witness for `requestResource_spec` at colony A, resource X,
amount 10 (above the held 5), tolerance 2. -/
theorem requestResource_spec_witness :
    (requestResource w4state w4colony "X" 10 2).1.colonyThresholds "A" "X"
        = some ⟨10, none, 2⟩
    ∧ (requestResource w4state w4colony "X" 10 2).2 = false := by
  have h5 : lookupQ w4colony.assets "X" < 10 := by
    have : lookupQ w4colony.assets "X" = 5 := by with_unfolding_all rfl
    rw [this]
    norm_num
  have hst : w4state.colonyStates w4colony.name = some (fun _ => none) := by
    with_unfolding_all rfl
  have h := (requestResource_spec w4state w4colony "X" 10 2).2 h5 (fun _ => none) hst
  have hname : w4colony.name = "A" := rfl
  exact ⟨hname ▸ h.2.1, h.1⟩

/-- The invariant the specification claims for every thresholds triple:
`tolerance ≤ target`, and when a surplus is present,
`surplus ≥ target + tolerance`. -/
def thresholdInvariant (t : Thresholds) : Prop :=
  t.tolerance ≤ t.target ∧ ∀ s, t.surplus = some s → t.target + t.tolerance ≤ s

/-- A single storage-holding colony with 600000 energy and no overrides. -/
def cexColonyC5 : ColonyV := ⟨"E1", [("energy", 600000)], none, some 0, false⟩

/-- C5 counterexample: the dynamically derived energy thresholds violate
the claimed invariant.  With one storage colony at 600000 energy the
computed triple is `(target 600000, surplus 500000, tolerance 120000)`,
and `surplus < target + tolerance`. -/
theorem energyThresholds_invariant_cex :
    ¬ thresholdInvariant (computeEnergyThresholds (fun _ _ => none) [cexColonyC5]) := by
  intro h
  have hsurp : (computeEnergyThresholds (fun _ _ => none) [cexColonyC5]).surplus
      = some 500000 := by with_unfolding_all rfl
  have h2 := h.2 500000 hsurp
  have ht : (computeEnergyThresholds (fun _ _ => none) [cexColonyC5]).target = 600000 := by
    with_unfolding_all rfl
  have htol : (computeEnergyThresholds (fun _ _ => none) [cexColonyC5]).tolerance = 120000 := by
    with_unfolding_all rfl
  rw [ht, htol] at h2
  norm_num at h2

/-- C5 amended: every static thresholds triple (the full `getThresholds`
table for any resource classification, and `THRESHOLDS_DONT_WANT`, the
`exportResource` default) satisfies the claimed invariant; the dynamic
energy thresholds satisfy `tolerance ≤ target` (whenever at least one
colony is averaged and assets are nonnegative) and always carry
`surplus = 500000`, but they satisfy `surplus ≥ target + tolerance` only
when the averaged energy target is at most 1250000/3. -/
theorem thresholds_invariant_amended :
    (∀ ab resource, thresholdInvariant (getThresholds ab resource))
    ∧ thresholdInvariant THRESHOLDS_DONT_WANT
    ∧ (∀ (cth : CName → RName → Option Thresholds) (colonies : List ColonyV),
        nonExceptionalColonies cth colonies ≠ [] →
        (∀ c ∈ colonies, 0 ≤ lookupQ c.assets "energy") →
        (computeEnergyThresholds cth colonies).tolerance
            ≤ (computeEnergyThresholds cth colonies).target
        ∧ (computeEnergyThresholds cth colonies).surplus = some 500000
        ∧ ((computeEnergyThresholds cth colonies).target
              + (computeEnergyThresholds cth colonies).tolerance ≤ 500000
            ↔ (computeEnergyThresholds cth colonies).target ≤ 1250000 / 3)) := by
  refine ⟨?_, ?_, ?_⟩
  · intro ab resource
    unfold getThresholds thresholdInvariant
    split_ifs <;>
      simp [THRESHOLDS_DEFAULT, THRESHOLDS_DONT_CARE, THRESHOLDS_POWER, THRESHOLDS_OPS,
            DEFAULT_TARGET, DEFAULT_SURPLUS, DEFAULT_TOLERANCE, LAB_MINERAL_CAPACITY] <;>
      norm_num
  · constructor
    · norm_num [THRESHOLDS_DONT_WANT]
    · intro s hs
      simp only [THRESHOLDS_DONT_WANT, Option.some.injEq] at hs
      simp [THRESHOLDS_DONT_WANT, ← hs]
  · intro cth colonies hne hnn
    have hlen : 0 < ((nonExceptionalColonies cth colonies).length : ℚ) := by
      have := List.length_pos.mpr hne
      exact_mod_cast this
    have hsum : 0 ≤ ((nonExceptionalColonies cth colonies).map
        (fun c => lookupQ c.assets "energy")).sum := by
      apply List.sum_nonneg
      intro x hx
      obtain ⟨c, hc, hcx⟩ := List.mem_map.mp hx
      have hcc : c ∈ colonies := List.mem_of_mem_filter hc
      exact hcx ▸ hnn c hcc
    have htarget : 0 ≤ (computeEnergyThresholds cth colonies).target := by
      simp only [computeEnergyThresholds]
      exact div_nonneg hsum hlen.le
    refine ⟨?_, rfl, ?_⟩
    · show (computeEnergyThresholds cth colonies).target / 5
        ≤ (computeEnergyThresholds cth colonies).target
      linarith
    · constructor
      · intro h
        have : (computeEnergyThresholds cth colonies).tolerance
            = (computeEnergyThresholds cth colonies).target / 5 := rfl
        rw [this] at h
        linarith
      · intro h
        have : (computeEnergyThresholds cth colonies).tolerance
            = (computeEnergyThresholds cth colonies).target / 5 := rfl
        rw [this]
        linarith

/-- A storage-holding colony with 100 energy, for witnessing the energy
threshold theorems. -/
def w5colony : ColonyV := ⟨"E1", [("energy", 100)], none, some 0, false⟩

/-- Witness for `thresholds_invariant_amended` with one averaged colony
holding 100 energy. -/
theorem thresholds_invariant_amended_witness :
    (computeEnergyThresholds (fun _ _ => none) [w5colony]).tolerance
      ≤ (computeEnergyThresholds (fun _ _ => none) [w5colony]).target
    ∧ (computeEnergyThresholds (fun _ _ => none) [w5colony]).surplus = some 500000 := by
  have hval : nonExceptionalColonies (fun _ _ => none) [w5colony] = [w5colony] := by
    with_unfolding_all rfl
  have hne : nonExceptionalColonies (fun _ _ => none) [w5colony] ≠ [] := by
    rw [hval]
    simp
  have hnn : ∀ c ∈ [w5colony], 0 ≤ lookupQ c.assets "energy" := by
    intro c hc
    have hc' : c = w5colony := by simpa using hc
    subst hc'
    have : lookupQ w5colony.assets "energy" = 100 := by with_unfolding_all rfl
    rw [this]
    norm_num
  have h := (thresholds_invariant_amended.2.2) (fun _ _ => none) [w5colony] hne hnn
  exact ⟨h.1, h.2.1⟩

/-- C6: the per-tick energy thresholds are computed at most once and
cached (the second call returns the first call's value, whatever the
colony list and overrides have become); the computed triple has
`target` equal to the mean energy of exactly the storage-holding,
non-overridden colonies, `surplus = 500000` and
`tolerance = target / 5`; and `refresh()` clears the cache. -/
theorem getEnergyThresholds_cached_mean
    (cth cth' : CName → RName → Option Thresholds) (colonies colonies' : List ColonyV)
    (wrapStats : StatsMem) (s : TNState)
    (h : nonExceptionalColonies cth colonies ≠ []) :
    (getEnergyThresholds (getEnergyThresholds none cth colonies).2 cth' colonies').1
      = (getEnergyThresholds none cth colonies).1
    ∧ (getEnergyThresholds none cth colonies).1.target
      = ((nonExceptionalColonies cth colonies).map (fun c => lookupQ c.assets "energy")).sum
        / ((nonExceptionalColonies cth colonies).length : ℚ)
    ∧ (getEnergyThresholds none cth colonies).1.surplus = some 500000
    ∧ (getEnergyThresholds none cth colonies).1.tolerance
      = (getEnergyThresholds none cth colonies).1.target / 5
    ∧ (refresh wrapStats s).energyCache = none :=
  ⟨rfl, rfl, rfl, rfl, rfl⟩

/-- An empty stats record for witnessing. -/
def w6stats : StatsMem := ⟨fun _ _ _ => 0, fun _ _ => 0, fun _ => 0, fun _ => 0⟩

/-- An empty network state for witnessing. -/
def w6tn : TNState :=
  ⟨[], fun _ _ => none, none, fun _ => none, fun _ => none, fun _ => none, fun _ => none,
   fun _ => none, fun _ => none, [], fun _ => false, [], w6stats⟩

/-- Witness for `getEnergyThresholds_cached_mean`: concrete single-colony
network; the cached second call with a different (empty) colony list still
returns the first value, and `refresh` clears the cache. -/
theorem getEnergyThresholds_cached_mean_witness :
    (getEnergyThresholds (getEnergyThresholds none (fun _ _ => none) [w5colony]).2
        (fun _ _ => none) []).1
      = (getEnergyThresholds none (fun _ _ => none) [w5colony]).1
    ∧ (refresh w6stats w6tn).energyCache = none := by
  have hval : nonExceptionalColonies (fun _ _ => none) [w5colony] = [w5colony] := by
    with_unfolding_all rfl
  have hne : nonExceptionalColonies (fun _ _ => none) [w5colony] ≠ [] := by
    rw [hval]
    simp
  have h := getEnergyThresholds_cached_mean (fun _ _ => none) (fun _ _ => none)
    [w5colony] [] w6stats w6tn hne
  exact ⟨h.1, h.2.2.2.2⟩

/-- Abathur predicates that classify nothing (resource "X" below then
falls through to `THRESHOLDS_DONT_CARE`). -/
def abNone : AbathurPreds :=
  ⟨fun _ => false, fun _ => false, fun _ => false, fun _ => false,
   fun _ => false, fun _ => false, fun _ => false⟩

/-- Request options with everything disabled. -/
def optsNone : RequestOpts := ⟨false, false, false, false⟩

/-- Request options with only divvying enabled. -/
def optsDivvy : RequestOpts := ⟨true, false, false, false⟩

/-- C1 failing input, the sender: 40000 energy in assets but only 5000 in
the terminal store, threshold override `target = 1000`. -/
def pC1 : ColonyV :=
  ⟨"P", [("energy", 40000)], some ⟨fun r => if r = "energy" then 5000 else 0, true⟩, none, false⟩

/-- C1 failing input, the requestor. -/
def bC1 : ColonyV := ⟨"B", [], some ⟨fun _ => 0, true⟩, none, false⟩

/-- C1 failing input context: only P has an override; all sends return
`OK`. -/
def ctxC1 : Ctx :=
  ⟨fun c r => if c = "P" ∧ r = "energy" then some ⟨1000, none, 0⟩ else none,
   ⟨0, some 500000, 0⟩, abNone, fun _ _ _ => 0, fun _ => 0, fun _ _ _ _ => 0,
   0, 0, 0, fun _ _ _ => -1⟩

/-- C1 (code bug evidence): on the single-partner path of
`handleRequestInstance`, a request of 30000 energy against a sender whose
terminal stores only 5000 passes the raw `requestAmount` of 30000 to the
terminal send - above both `maxEnergySendAmount = 25000` and the store -
even though the clamped `sendAmount` (= 5000) was computed on the line
before. -/
theorem handleRequest_single_path_sends_unclamped_amount :
    (handleRequestInstance ctxC1 bC1 "energy" 30000 [[pC1]] optsNone).sends
      = [⟨"P", "B", "energy", 30000, RC_OK⟩]
    ∧ (term! pC1).store "energy" = 5000
    ∧ (30000:ℚ) > maxEnergySendAmount
    ∧ (30000:ℚ) > (term! pC1).store "energy" := by
  refine ⟨by with_unfolding_all rfl, by with_unfolding_all rfl, by norm_num [maxEnergySendAmount], ?_⟩
  have h : (term! pC1).store "energy" = 5000 := by with_unfolding_all rfl
  rw [h]
  norm_num

/-- A provider of resource X with the given amount both in assets and in
its terminal store. -/
def mkPX (n : CName) (amt : ℚ) : ColonyV :=
  ⟨n, [("X", amt)], some ⟨fun r => if r = "X" then amt else 0, true⟩, none, false⟩

/-- C2 failing input context: no overrides, so resource X has
`target = 0`; all sends return `OK`. -/
def ctxC2 : Ctx :=
  ⟨fun _ _ => none, ⟨0, some 500000, 0⟩, abNone, fun _ _ _ => 0, fun _ => 0,
   fun _ _ _ _ => 0, 0, 0, 0, fun _ _ _ => -1⟩

/-- C2 failing input, the requestor. -/
def recvC2 : ColonyV := ⟨"B", [], some ⟨fun _ => 0, true⟩, none, false⟩

/-- C2 (code bug evidence): with four divvy candidates of excesses
400, 200, 100 and 300, the divvy fallback selects the three with the
LEAST excess and iterates them in ASCENDING order of excess -
`_.sortBy` sorts ascending - contradicting both the inline comment
("pick 3 with the most amt") and the spec's descending order; the
executed transfer trace draws from A (excess 100) first and never from
D (excess 400). -/
theorem divvy_takes_least_excess_ascending :
    (divvyPartners ctxC2 "X"
        [mkPX "D" 400, mkPX "B1" 200, mkPX "A" 100, mkPX "C" 300]).map ColonyV.name
      = ["A", "B1", "C"]
    ∧ (handleRequestInstance ctxC2 recvC2 "X" 10000
        [[mkPX "D" 400, mkPX "B1" 200, mkPX "A" 100, mkPX "C" 300]] optsDivvy).sends.map
          SendCall.origin
      = ["A", "B1", "C"]
    ∧ (["A", "B1", "C"] : List CName) ≠ ["D", "C", "B1"] := by
  refine ⟨by with_unfolding_all rfl, by with_unfolding_all rfl, by decide⟩

/-- C10 input, the divvy partner: 10000 of X in assets (above its
override target 7000) but only 500 in the terminal store. -/
def qC10 : ColonyV :=
  ⟨"Q", [("X", 10000)], some ⟨fun r => if r = "X" then 500 else 0, true⟩, none, false⟩

/-- C10 input, the requestor. -/
def bC10 : ColonyV := ⟨"B2", [], some ⟨fun _ => 0, true⟩, none, false⟩

/-- C10 input context: Q has `target = 7000` for X; all sends return
`OK`. -/
def ctxC10 : Ctx :=
  ⟨fun c r => if c = "Q" ∧ r = "X" then some ⟨7000, none, 0⟩ else none,
   ⟨0, some 500000, 0⟩, abNone, fun _ _ _ => 0, fun _ => 0, fun _ _ _ _ => 0,
   0, 0, 0, fun _ _ _ => -1⟩

/-- C10: in the divvy fallback the per-partner allowance is computed from
the terminal store minus the target while the filter admitted Q by its
assets; with Q's store (500) below its target (7000) the computed send
amount is `500 - 7000 = -6500 < 0` and is passed to the terminal send
unguarded. -/
theorem divvy_negative_send_amount :
    (handleRequestInstance ctxC10 bC10 "X" 8000 [[qC10]] optsDivvy).sends
      = [⟨"Q", "B2", "X", -6500, RC_OK⟩]
    ∧ lookupQ qC10.assets "X" > (cthresholds ctxC10 qC10 "X").target
    ∧ (term! qC10).store "X" < (cthresholds ctxC10 qC10 "X").target
    ∧ ((-6500:ℚ) < 0) := by
  refine ⟨by with_unfolding_all rfl, ?_, ?_, by norm_num⟩
  · have h1 : lookupQ qC10.assets "X" = 10000 := by with_unfolding_all rfl
    have h2 : (cthresholds ctxC10 qC10 "X").target = 7000 := by with_unfolding_all rfl
    rw [h1, h2]
    norm_num
  · have h3 : (term! qC10).store "X" = 500 := by with_unfolding_all rfl
    have h2 : (cthresholds ctxC10 qC10 "X").target = 7000 := by with_unfolding_all rfl
    rw [h3, h2]
    norm_num

/-- Loop invariant of the divvy loop: if every `OK` send already in the
accumulator is accounted for by `sentSome`, then any `OK` send in the
final trace forces the final `sentSome` to be `true`. -/
theorem divvyLoop_ok_imp_sentSome (ctx : Ctx) (colony : ColonyV) (resource : RName) :
    ∀ (ps : List ColonyV) (remaining : ℚ) (sentSome : Bool) (sends : List SendCall)
      (ovl : List CName),
      ((∃ sc ∈ sends, sc.response = RC_OK) → sentSome = true) →
      ((∃ sc ∈ (divvyLoop ctx colony resource ps remaining sentSome sends ovl).2.2.2.1,
          sc.response = RC_OK) →
        (divvyLoop ctx colony resource ps remaining sentSome sends ovl).2.1 = true) := by
  intro ps
  induction ps with
  | nil =>
    intro remaining sentSome sends ovl hinv
    simpa [divvyLoop] using hinv
  | cons p ps ih =>
    intro remaining sentSome sends ovl hinv
    simp only [divvyLoop]
    by_cases hr : (term! p).isReady = true
    · rw [if_pos hr]
      by_cases hok : ctx.sendResult p.name colony.name resource
          (divvySendAmount ctx p resource remaining) = RC_OK
      · rw [if_pos hok]
        by_cases he : remaining - divvySendAmount ctx p resource remaining ≤ 0
        · rw [if_pos he]
          intro _
          rfl
        · rw [if_neg he]
          exact ih _ true _ _ (fun _ => rfl)
      · rw [if_neg hok]
        have hinv' : (∃ sc ∈ sends ++
            [(⟨p.name, colony.name, resource, divvySendAmount ctx p resource remaining,
              ctx.sendResult p.name colony.name resource
                (divvySendAmount ctx p resource remaining)⟩ : SendCall)],
            sc.response = RC_OK) → sentSome = true := by
          rintro ⟨sc, hmem, hresp⟩
          rcases List.mem_append.mp hmem with hl | hrr
          · exact hinv ⟨sc, hl, hresp⟩
          · exfalso
            have heq : sc = _ := List.mem_singleton.mp hrr
            subst heq
            exact hok hresp
        by_cases he : remaining ≤ 0
        · rw [if_pos he]
          exact hinv'
        · rw [if_neg he]
          exact ih _ sentSome _ _ hinv'
    · rw [if_neg hr]
      by_cases he : remaining ≤ 0
      · rw [if_pos he]
        exact hinv
      · rw [if_neg he]
        exact ih _ sentSome _ _ hinv

/-- Projection: the market phase returns the sends it was handed. -/
theorem marketPhase_sends (ctx : Ctx) (colony : ColonyV) (resource : RName)
    (requestAmount : ℚ) (opts : RequestOpts) (sends : List SendCall) (ovl : List CName) :
    (marketPhase ctx colony resource requestAmount opts sends ovl).sends = sends := by
  unfold marketPhase
  split_ifs <;> rfl

/-- C8: in `handleRequestInstance` with divvying enabled and the
single-partner search exhausted, if at least one divvy send returned `OK`
then the whole request instance counts as handled and control never
reaches the market-buy section, whatever need remains. -/
theorem divvy_ok_suppresses_market (ctx : Ctx) (colony : ColonyV) (resource : RName)
    (requestAmount : ℚ) (partnerSets : List (List ColonyV)) (opts : RequestOpts)
    (hsingle : tryPartnerSets ctx colony resource requestAmount partnerSets = none)
    (hdivvy : opts.allowDivvying = true)
    (hok : ∃ sc ∈ (handleRequestInstance ctx colony resource requestAmount partnerSets opts).sends,
        sc.response = RC_OK) :
    (handleRequestInstance ctx colony resource requestAmount partnerSets opts).handled = true
    ∧ (handleRequestInstance ctx colony resource requestAmount partnerSets opts).marketReached
        = false := by
  simp only [handleRequestInstance, hsingle, hdivvy, if_true] at hok ⊢
  by_cases h1 : (divvyLoop ctx colony resource
      (divvyPartners ctx resource partnerSets.flatten) requestAmount false [] []).1 = true
  · simp [h1]
  · by_cases h2 : (divvyLoop ctx colony resource
        (divvyPartners ctx resource partnerSets.flatten) requestAmount false [] []).2.1 = true
    · simp [h1, h2]
    · exfalso
      simp only [h1, h2, Bool.false_eq_true, if_false, marketPhase_sends] at hok
      have hc := divvyLoop_ok_imp_sentSome ctx colony resource
        (divvyPartners ctx resource partnerSets.flatten) requestAmount false [] []
        (by simp) hok
      exact h2 hc

/-- C8 witness input, the divvy partner: 100 of X in assets and store. -/
def pC8 : ColonyV :=
  ⟨"A8", [("X", 100)], some ⟨fun r => if r = "X" then 100 else 0, true⟩, none, false⟩

/-- C8 witness input, the requestor. -/
def bC8 : ColonyV := ⟨"B8", [], some ⟨fun _ => 0, true⟩, none, false⟩

/-- C8 witness context: no overrides, all sends return `OK`. -/
def ctxC8 : Ctx :=
  ⟨fun _ _ => none, ⟨0, some 500000, 0⟩, abNone, fun _ _ _ => 0, fun _ => 0,
   fun _ _ _ _ => 0, 0, 0, 0, fun _ _ _ => -1⟩

/-- Witness for `divvy_ok_suppresses_market`: a request of 200 against a
lone divvy partner that can only send 100; the one `OK` send makes the
instance count as handled and the market section is never reached even
though 100 of the need is unmet. -/
theorem divvy_ok_suppresses_market_witness :
    (handleRequestInstance ctxC8 bC8 "X" 200 [[pC8]] optsDivvy).handled = true
    ∧ (handleRequestInstance ctxC8 bC8 "X" 200 [[pC8]] optsDivvy).marketReached = false := by
  have hsingle : tryPartnerSets ctxC8 bC8 "X" 200 [[pC8]] = none := by
    with_unfolding_all rfl
  have hsends : (handleRequestInstance ctxC8 bC8 "X" 200 [[pC8]] optsDivvy).sends
      = [⟨"A8", "B8", "X", 100, RC_OK⟩] := by
    with_unfolding_all rfl
  refine divvy_ok_suppresses_market ctxC8 bC8 "X" 200 [[pC8]] optsDivvy hsingle rfl ?_
  rw [hsends]
  exact ⟨⟨"A8", "B8", "X", 100, RC_OK⟩, by simp, rfl⟩
